import Mathlib

/-!
A shallow embedding of `src/handlers.ts` of the BookStore-API repository:
five AWS Lambda handlers (`createBook`, `getBook`, `updateBook`,
`deleteBook`, `listBook`) over a single DynamoDB table keyed on the
string attribute `ISBN`.

Modelling conventions (external collaborators of the handlers):
- `JSON.parse(event.body)` is the JavaScript platform parser; its outcome
  is passed to a handler as `Except String Value` (`.ok v` for a parsed
  value, `.error msg` for a `SyntaxError` carrying the parser message).
- The `uuid.v4()` generator is external randomness; the generated string
  is passed to `createBook` as an argument.
- The DynamoDB `DocumentClient` is modelled by a pure table state
  (`Table`) with `tget`, `tput`, `tdelete`, `tscan` for the four calls the
  source makes; the successful storage path is modelled as pure state
  passing, and `listBook` additionally takes the scan outcome as an
  `Except` so that a storage failure can be observed to propagate.
- The `yup` validation library is an external dependency; `schemaValidate`
  models the observable contract of the schema declared in the source
  (each of the five fields required, string or date or boolean typed,
  validated with abortEarly set to false so that every violated field
  contributes its message). The JavaScript date parser used by the yup
  date cast is passed in as a predicate `dp : String → Bool` on the
  string coercion of the candidate value.
-/

/-- A JSON value as produced by `JSON.parse`. -/
inductive Value where
  | vNull
  | vBool (b : Bool)
  | vNum (n : Int)
  | vStr (s : String)
  | vArr (elems : List Value)
  | vObj (fields : List (String × Value))
deriving Repr

/-- The fields of a JSON object, in property order. -/
abbrev JObj := List (String × Value)

/-- First value bound to key `k` in an object (JavaScript property read). -/
def lookupField : JObj → String → Option Value
  | [], _ => none
  | (k', v) :: rest, k => if k' = k then some v else lookupField rest k

/-- JavaScript object spread update: the literal with spread o and then
binding k to v keeps the position of an existing key `k` and appends the
key otherwise. -/
def setField : JObj → String → Value → JObj
  | [], k, v => [(k, v)]
  | (k', v') :: rest, k, v =>
      if k' = k then (k, v) :: rest else (k', v') :: setField rest k v

/-- JSON string escaping as performed by `JSON.stringify`. -/
def escapeChar (c : Char) : String :=
  if c = '\"' then "\\\""
  else if c = '\\' then "\\\\"
  else if c = '\n' then "\\n"
  else if c = '\r' then "\\r"
  else if c = '\t' then "\\t"
  else String.singleton c

/-- Escape a list of characters for JSON output. -/
def escapeChars : List Char → String
  | [] => ""
  | c :: cs => escapeChar c ++ escapeChars cs

/-- Escape every character of a string for JSON output. -/
def escapeString (s : String) : String :=
  escapeChars s.data

mutual

/-- `JSON.stringify`, with object keys in property order. -/
def jsonStringify : Value → String
  | .vNull => "null"
  | .vBool true => "true"
  | .vBool false => "false"
  | .vNum n => toString n
  | .vStr s => "\"" ++ escapeString s ++ "\""
  | .vArr elems => "[" ++ stringifyElems elems ++ "]"
  | .vObj fields => "\x7b" ++ stringifyFields fields ++ "\x7d"

/-- Comma-joined stringification of array elements. -/
def stringifyElems : List Value → String
  | [] => ""
  | [v] => jsonStringify v
  | v :: rest => jsonStringify v ++ "," ++ stringifyElems rest

/-- Comma-joined stringification of object entries. -/
def stringifyFields : List (String × Value) → String
  | [] => ""
  | [(k, v)] => "\"" ++ escapeString k ++ "\":" ++ jsonStringify v
  | (k, v) :: rest =>
      "\"" ++ escapeString k ++ "\":" ++ jsonStringify v ++ "," ++ stringifyFields rest

end

mutual

/-- JavaScript string coercion of a value, as applied by the yup date
cast before date parsing. -/
def jsToString : Value → String
  | .vNull => "null"
  | .vBool true => "true"
  | .vBool false => "false"
  | .vNum n => toString n
  | .vStr s => s
  | .vArr elems => jsToStringElems elems
  | .vObj _ => "[object Object]"

/-- JavaScript array-to-string coercion: elements joined by commas, with
null elements rendered empty. -/
def jsToStringElems : List Value → String
  | [] => ""
  | [.vNull] => ""
  | [v] => jsToString v
  | .vNull :: rest => "," ++ jsToStringElems rest
  | v :: rest => jsToString v ++ "," ++ jsToStringElems rest

end

/-- The DynamoDB table `BooksTable`: items keyed by their string `ISBN`
attribute. -/
abbrev Table := List (String × JObj)

/-- DynamoDB single-item get by key. -/
def tget : Table → String → Option JObj
  | [], _ => none
  | (k, item) :: rest, id => if k = id then some item else tget rest id

/-- Store an item under a key, replacing any existing item with that key. -/
def tset : Table → String → JObj → Table
  | [], k, item => [(k, item)]
  | (k', it') :: rest, k, item =>
      if k' = k then (k, item) :: rest else (k', it') :: tset rest k item

/-- The key attribute of an item: its `ISBN` field when that field is a
string. DynamoDB rejects items whose key attribute is missing or not a
string; both handlers that call put set `ISBN` to a string first, so only
the `some` branch is reachable in the handler flows. -/
def itemKey (item : JObj) : Option String :=
  match lookupField item "ISBN" with
  | some (.vStr s) => some s
  | _ => none

/-- DynamoDB put: full overwrite of the item stored under the key
attribute of the new item, with no preexisting-key check. -/
def tput (t : Table) (item : JObj) : Table :=
  match itemKey item with
  | some k => tset t k item
  | none => t

/-- DynamoDB single-item delete by key. -/
def tdelete (t : Table) (k : String) : Table :=
  t.filter (fun p => p.1 != k)

/-- DynamoDB scan: every item of the table. -/
def tscan (t : Table) : List JObj :=
  t.map (fun p => p.2)

/-- Check of one required string field (yup string().required()): absent,
null and empty-string values violate required; numbers and booleans cast
to nonempty strings and pass; arrays and plain objects fail the string
cast. At most one message per field, as yup reports with abortEarly
false. -/
def requiredString (fields : JObj) (name : String) : Option String :=
  match lookupField fields name with
  | none => some (name ++ " is a required field")
  | some .vNull => some (name ++ " is a required field")
  | some (.vStr s) =>
      if s = "" then some (name ++ " is a required field") else none
  | some (.vNum _) => none
  | some (.vBool _) => none
  | some (.vArr _) => some (name ++ " must be a `string` type")
  | some (.vObj _) => some (name ++ " must be a `string` type")

/-- Check of the required date field (yup date().required()): absent and
null values violate required; any other value is coerced to a string and
given to the platform date parser `dp`. -/
def requiredDate (dp : String → Bool) (fields : JObj) : Option String :=
  match lookupField fields "publication_date" with
  | none => some "publication_date is a required field"
  | some .vNull => some "publication_date is a required field"
  | some v =>
      if dp (jsToString v) then none
      else some "publication_date must be a `date` type"

/-- Check of the required boolean field (yup bool().required()): absent
and null values violate required; booleans pass; the strings true and
false (case-insensitive) cast to booleans and pass; everything else fails
the boolean cast. -/
def requiredBool (fields : JObj) : Option String :=
  match lookupField fields "available" with
  | none => some "available is a required field"
  | some .vNull => some "available is a required field"
  | some (.vBool _) => none
  | some (.vStr s) =>
      if s.toLower = "true" ∨ s.toLower = "false" then none
      else some "available must be a `boolean` type"
  | some _ => some "available must be a `boolean` type"

/-- All field violations of a candidate object, one message per violated
field, in schema declaration order; validation does not stop at the first
failure (abortEarly false). -/
def fieldErrors (dp : String → Bool) (fields : JObj) : List String :=
  (requiredString fields "author").toList
    ++ (requiredString fields "title").toList
    ++ (requiredString fields "description").toList
    ++ (requiredDate dp fields).toList
    ++ (requiredBool fields).toList

/-- schema.validate with abortEarly false: a non-object candidate fails
the object cast with a single message; an object candidate either passes
(returning the raw candidate, whose cast result the source discards) or
fails with the collected list of field messages. -/
def schemaValidate (dp : String → Bool) : Value → Except (List String) JObj
  | .vObj fields =>
      match fieldErrors dp fields with
      | [] => .ok fields
      | errs => .error errs
  | _ => .error ["this must be a `object` type"]

/-- The error values a handler can observe: a yup ValidationError, a
JSON.parse SyntaxError, the HttpError class of the source, or any other
thrown failure (such as a storage fault), abstracted by a tag. -/
inductive JsError where
  | validationError (errors : List String)
  | syntaxError (message : String)
  | httpError (statusCode : Nat) (body : JObj)
  | otherError (tag : String)
deriving Repr

/-- An APIGatewayProxyResult: status code, optional headers, string
body. -/
structure ApiResponse where
  statusCode : Nat
  headers : Option (List (String × String))
  body : String
deriving Repr, DecidableEq

/-- The shared headers constant of the source. -/
def headers : List (String × String) := [("content-type", "application/json")]

/-- A JSON response as built by the source: the given status, the shared
content-type header, and the stringified value as body. -/
def jsonResponse (status : Nat) (v : Value) : ApiResponse :=
  { statusCode := status, headers := some headers, body := jsonStringify v }

/-- handleError: maps a ValidationError to 400 with the collected errors
array, a SyntaxError to 400 with the invalid-request-body message, an
HttpError to its own status with its stringified body, and re-throws
everything else. -/
def handleError : JsError → Except JsError ApiResponse
  | .validationError errs =>
      .ok (jsonResponse 400 (.vObj [("errors", .vArr (errs.map .vStr))]))
  | .syntaxError msg =>
      .ok (jsonResponse 400
        (.vObj [("error", .vStr ("invalid request body format : \"" ++ msg ++ "\""))]))
  | .httpError status body =>
      .ok { statusCode := status, headers := some headers,
            body := jsonStringify (.vObj body) }
  | .otherError tag => .error (.otherError tag)

/-- fetchBookById: DynamoDB get on the identifier; throws HttpError 404
with body error not-found when the item is absent. -/
def fetchBookById (t : Table) (id : String) : Except JsError JObj :=
  match tget t id with
  | some item => .ok item
  | none => .error (.httpError 404 [("error", .vStr "not found")])

/-- The try/catch wrapper of the mutating handlers: a thrown error is
given to handleError; since every throw in a handler body happens before
its put or delete call, the caught response is paired with the entry
table state. -/
def catchAll (t : Table) (r : Except JsError (ApiResponse × Table)) :
    Except JsError (ApiResponse × Table) :=
  match r with
  | .ok x => .ok x
  | .error e =>
      match handleError e with
      | .ok resp => .ok (resp, t)
      | .error e2 => .error e2

/-- The try/catch wrapper of getBook, which does not write the table. -/
def catchAllResp (r : Except JsError ApiResponse) : Except JsError ApiResponse :=
  match r with
  | .ok x => .ok x
  | .error e => handleError e

/-- The try block of createBook: parse the body (SyntaxError on failure),
validate it (ValidationError on failure), build the book by spreading the
raw parsed body and binding ISBN to the generated identifier, put it, and
answer 201 with the stringified book. -/
def createBookTry (dp : String → Bool) (newIsbn : String)
    (body : Except String Value) (t : Table) :
    Except JsError (ApiResponse × Table) :=
  match body with
  | .error msg => .error (.syntaxError msg)
  | .ok reqBody =>
      match schemaValidate dp reqBody with
      | .error errs => .error (.validationError errs)
      | .ok fields =>
          let book := setField fields "ISBN" (.vStr newIsbn)
          .ok (jsonResponse 201 (.vObj book), tput t book)

/-- createBook handler: the try block under the catch-all handleError. -/
def createBook (dp : String → Bool) (newIsbn : String)
    (body : Except String Value) (t : Table) :
    Except JsError (ApiResponse × Table) :=
  catchAll t (createBookTry dp newIsbn body t)

/-- The try block of getBook: fetch by identifier and answer 200 with the
stringified record. -/
def getBookTry (id : String) (t : Table) : Except JsError ApiResponse :=
  match fetchBookById t id with
  | .error e => .error e
  | .ok book => .ok (jsonResponse 200 (.vObj book))

/-- getBook handler. -/
def getBook (id : String) (t : Table) : Except JsError ApiResponse :=
  catchAllResp (getBookTry id t)

/-- The try block of updateBook: fetch the existing record first (its
value is discarded), only then parse and validate the body, build the
book by spreading the raw parsed body and binding ISBN to the path
identifier, put it, and answer 200 with the stringified book. -/
def updateBookTry (dp : String → Bool) (id : String)
    (body : Except String Value) (t : Table) :
    Except JsError (ApiResponse × Table) :=
  match fetchBookById t id with
  | .error e => .error e
  | .ok _ =>
      match body with
      | .error msg => .error (.syntaxError msg)
      | .ok reqBody =>
          match schemaValidate dp reqBody with
          | .error errs => .error (.validationError errs)
          | .ok fields =>
              let book := setField fields "ISBN" (.vStr id)
              .ok (jsonResponse 200 (.vObj book), tput t book)

/-- updateBook handler. -/
def updateBook (dp : String → Bool) (id : String)
    (body : Except String Value) (t : Table) :
    Except JsError (ApiResponse × Table) :=
  catchAll t (updateBookTry dp id body t)

/-- The try block of deleteBook: fetch the existing record first (value
discarded), delete by key, and answer 204 with a plain-text body and no
headers field at all (so no content-type header). -/
def deleteBookTry (id : String) (t : Table) :
    Except JsError (ApiResponse × Table) :=
  match fetchBookById t id with
  | .error e => .error e
  | .ok _ =>
      .ok ({ statusCode := 204, headers := none,
             body := "Record deleted successfully " }, tdelete t id)

/-- deleteBook handler. -/
def deleteBook (id : String) (t : Table) :
    Except JsError (ApiResponse × Table) :=
  catchAll t (deleteBookTry id t)

/-- listBook handler: no try/catch at all; a scan failure propagates
unchanged, a successful scan answers 200 with the stringified array of
all items. -/
def listBook (scanResult : Except JsError (List JObj)) :
    Except JsError ApiResponse :=
  match scanResult with
  | .error e => .error e
  | .ok items => .ok (jsonResponse 200 (.vArr (items.map .vObj)))

/-- A date parser accepting every string, used to instantiate the
external-platform parameter on concrete runs. -/
def dpAll : String → Bool := fun _ => true

/-- A concrete valid creation payload used by concrete runs. -/
def demoFields : JObj :=
  [("author", Value.vStr "A"), ("title", Value.vStr "T"),
   ("description", Value.vStr "D"),
   ("publication_date", Value.vStr "2020-01-01"),
   ("available", Value.vBool true)]

theorem escapeChars_append (a b : List Char) :
    escapeChars (a ++ b) = escapeChars a ++ escapeChars b := by
  induction a with
  | nil => simp [escapeChars]
  | cons c cs ih => simp [escapeChars, ih, String.append_assoc]

theorem escapeString_append (a b : String) :
    escapeString (a ++ b) = escapeString a ++ escapeString b := by
  simp [escapeString, String.data_append, escapeChars_append]

theorem lookupField_setField_self (o : JObj) (k : String) (v : Value) :
    lookupField (setField o k v) k = some v := by
  induction o with
  | nil => simp [setField, lookupField]
  | cons p rest ih =>
      obtain ⟨k', v'⟩ := p
      by_cases h : k' = k
      · simp [setField, h, lookupField]
      · simp [setField, h, lookupField, ih]

theorem setField_append_of_not_mem (o : JObj) (k : String) (v : Value)
    (h : lookupField o k = none) : setField o k v = o ++ [(k, v)] := by
  induction o with
  | nil => simp [setField]
  | cons p rest ih =>
      obtain ⟨k', v'⟩ := p
      by_cases hk : k' = k
      · simp [lookupField, hk] at h
      · simp [lookupField, hk] at h
        simp [setField, hk, ih h]

theorem itemKey_setField (o : JObj) (s : String) :
    itemKey (setField o "ISBN" (.vStr s)) = some s := by
  simp [itemKey, lookupField_setField_self]

theorem tget_tset_self (t : Table) (k : String) (item : JObj) :
    tget (tset t k item) k = some item := by
  induction t with
  | nil => simp [tset, tget]
  | cons p rest ih =>
      obtain ⟨k', it'⟩ := p
      by_cases h : k' = k
      · simp [tset, h, tget]
      · simp [tset, h, tget, ih]

theorem tget_tdelete_self (t : Table) (k : String) :
    tget (tdelete t k) k = none := by
  induction t with
  | nil => rfl
  | cons p rest ih =>
      obtain ⟨k', it'⟩ := p
      by_cases h : k' = k
      · subst h
        simpa [tdelete, List.filter_cons] using ih
      · have hb : (k' != k) = true := by simpa [bne_iff_ne] using h
        simpa [tdelete, List.filter_cons, hb, tget, h] using ih

/-- C3: update on an identifier absent from the table answers HTTP 404
with the not-found body and an unchanged table, for every request body
(parsed or unparseable): the existence check runs strictly before body
parsing and validation, so the response does not depend on the body. -/
theorem updateBook_absent_404 (dp : String → Bool) (id : String)
    (body : Except String Value) (t : Table) (h : tget t id = none) :
    updateBook dp id body t =
      .ok (jsonResponse 404 (.vObj [("error", .vStr "not found")]), t) := by
  simp [updateBook, updateBookTry, fetchBookById, h, catchAll, handleError,
    jsonResponse]

theorem updateBook_absent_404_witness :
    tget ([] : Table) "i" = none ∧
    updateBook dpAll "i" (Except.error "oops") [] =
      .ok (jsonResponse 404 (.vObj [("error", .vStr "not found")]), []) :=
  ⟨rfl, updateBook_absent_404 dpAll "i" (Except.error "oops") [] rfl⟩

/-- C5: get answers HTTP 200 with the stored record stringified when the
identifier is present, and HTTP 404 with the not-found body exactly when
it is absent; the 404 body is the two-character-escaped JSON text. -/
theorem getBook_present_or_404 (id : String) (t : Table) :
    (∀ item, tget t id = some item →
      getBook id t = .ok (jsonResponse 200 (.vObj item))) ∧
    (tget t id = none →
      getBook id t = .ok (jsonResponse 404 (.vObj [("error", .vStr "not found")]))) ∧
    ((∃ r, getBook id t = .ok r ∧ r.statusCode = 404) ↔ tget t id = none) ∧
    (jsonResponse 404 (.vObj [("error", .vStr "not found")])).body =
      "\x7b\"error\":\"not found\"\x7d" := by
  refine ⟨?_, ?_, ?_, rfl⟩
  · intro item h
    simp [getBook, getBookTry, fetchBookById, h, catchAllResp]
  · intro h
    simp [getBook, getBookTry, fetchBookById, h, catchAllResp, handleError,
      jsonResponse]
  · cases htg : tget t id with
    | some item =>
        simp [getBook, getBookTry, fetchBookById, htg, catchAllResp,
          jsonResponse]
    | none =>
        simp [getBook, getBookTry, fetchBookById, htg, catchAllResp,
          handleError, jsonResponse]

theorem getBook_present_or_404_witness :
    tget [("i", demoFields)] "i" = some demoFields ∧
    getBook "i" [("i", demoFields)] =
      .ok (jsonResponse 200 (.vObj demoFields)) ∧
    getBook "i" [] =
      .ok (jsonResponse 404 (.vObj [("error", .vStr "not found")])) :=
  ⟨rfl, (getBook_present_or_404 "i" [("i", demoFields)]).1 demoFields rfl,
    (getBook_present_or_404 "i" []).2.1 rfl⟩

/-- C1: update on an existing identifier with a parseable body accepted
by the schema answers HTTP 200 with the new record stringified, and the
table now stores, under the path identifier, exactly the payload fields
with ISBN bound to the path identifier (a full overwrite that does not
depend on the old record, with any ISBN field of the body discarded in
favor of the path identifier). -/
theorem updateBook_full_overwrite (dp : String → Bool) (id : String)
    (t : Table) (old : JObj) (v : Value) (fields : JObj)
    (hex : tget t id = some old)
    (hval : schemaValidate dp v = .ok fields) :
    updateBook dp id (.ok v) t =
      .ok (jsonResponse 200 (.vObj (setField fields "ISBN" (.vStr id))),
        tset t id (setField fields "ISBN" (.vStr id))) ∧
    tget (tset t id (setField fields "ISBN" (.vStr id))) id =
      some (setField fields "ISBN" (.vStr id)) ∧
    lookupField (setField fields "ISBN" (.vStr id)) "ISBN" =
      some (.vStr id) := by
  refine ⟨?_, tget_tset_self t id _, lookupField_setField_self fields "ISBN" _⟩
  simp [updateBook, updateBookTry, fetchBookById, hex, hval, catchAll, tput,
    itemKey_setField]

theorem updateBook_full_overwrite_witness :
    tget [("i", [("title", Value.vStr "Old")])] "i" =
      some [("title", Value.vStr "Old")] ∧
    schemaValidate dpAll (.vObj (demoFields ++ [("ISBN", Value.vStr "evil")])) =
      .ok (demoFields ++ [("ISBN", Value.vStr "evil")]) ∧
    updateBook dpAll "i"
        (Except.ok (.vObj (demoFields ++ [("ISBN", Value.vStr "evil")])))
        [("i", [("title", Value.vStr "Old")])] =
      .ok (jsonResponse 200
            (.vObj (setField (demoFields ++ [("ISBN", Value.vStr "evil")])
              "ISBN" (.vStr "i"))),
        tset [("i", [("title", Value.vStr "Old")])] "i"
          (setField (demoFields ++ [("ISBN", Value.vStr "evil")])
            "ISBN" (.vStr "i"))) ∧
    lookupField (setField (demoFields ++ [("ISBN", Value.vStr "evil")])
        "ISBN" (.vStr "i")) "ISBN" = some (.vStr "i") :=
  ⟨rfl, rfl,
    (updateBook_full_overwrite dpAll "i" [("i", [("title", Value.vStr "Old")])]
      [("title", Value.vStr "Old")]
      (.vObj (demoFields ++ [("ISBN", Value.vStr "evil")]))
      (demoFields ++ [("ISBN", Value.vStr "evil")]) rfl rfl).1,
    (updateBook_full_overwrite dpAll "i" [("i", [("title", Value.vStr "Old")])]
      [("title", Value.vStr "Old")]
      (.vObj (demoFields ++ [("ISBN", Value.vStr "evil")]))
      (demoFields ++ [("ISBN", Value.vStr "evil")]) rfl rfl).2.2⟩

/-- C2: create on a schema-accepted object payload that carries no ISBN
field, given a generated identifier not previously assigned in the table,
answers HTTP 201 with a body holding exactly the submitted fields plus
the generated ISBN appended, and persists that same record under the
generated identifier. -/
theorem createBook_valid_201 (dp : String → Bool) (newIsbn : String)
    (t : Table) (fields : JObj)
    (hval : schemaValidate dp (.vObj fields) = .ok fields)
    (hnoisbn : lookupField fields "ISBN" = none)
    (hfresh : tget t newIsbn = none) :
    createBook dp newIsbn (.ok (.vObj fields)) t =
      .ok (jsonResponse 201 (.vObj (fields ++ [("ISBN", .vStr newIsbn)])),
        tset t newIsbn (fields ++ [("ISBN", .vStr newIsbn)])) ∧
    tget (tset t newIsbn (fields ++ [("ISBN", .vStr newIsbn)])) newIsbn =
      some (fields ++ [("ISBN", .vStr newIsbn)]) := by
  have hset := setField_append_of_not_mem fields "ISBN" (.vStr newIsbn) hnoisbn
  have h1 : createBook dp newIsbn (.ok (.vObj fields)) t =
      .ok (jsonResponse 201 (.vObj (setField fields "ISBN" (.vStr newIsbn))),
        tset t newIsbn (setField fields "ISBN" (.vStr newIsbn))) := by
    simp [createBook, createBookTry, hval, catchAll, tput, itemKey_setField]
  rw [hset] at h1
  exact ⟨h1, tget_tset_self t newIsbn _⟩

theorem createBook_valid_201_witness :
    schemaValidate dpAll (.vObj demoFields) = .ok demoFields ∧
    lookupField demoFields "ISBN" = none ∧
    tget ([] : Table) "u1" = none ∧
    createBook dpAll "u1" (Except.ok (.vObj demoFields)) [] =
      .ok (jsonResponse 201 (.vObj (demoFields ++ [("ISBN", .vStr "u1")])),
        tset [] "u1" (demoFields ++ [("ISBN", .vStr "u1")])) :=
  ⟨rfl, rfl, rfl, (createBook_valid_201 dpAll "u1" [] demoFields rfl rfl rfl).1⟩

/-- C7: create performs no preexisting-key check: when the table already
stores a record under the generated identifier and the payload passes
validation, create still answers HTTP 201 and the stored record under
that identifier is silently replaced by the new one. -/
theorem createBook_collision_overwrites (dp : String → Bool) (isbn : String)
    (t : Table) (old : JObj) (fields : JObj)
    (hval : schemaValidate dp (.vObj fields) = .ok fields)
    (hex : tget t isbn = some old) :
    createBook dp isbn (.ok (.vObj fields)) t =
      .ok (jsonResponse 201 (.vObj (setField fields "ISBN" (.vStr isbn))),
        tset t isbn (setField fields "ISBN" (.vStr isbn))) ∧
    tget (tset t isbn (setField fields "ISBN" (.vStr isbn))) isbn =
      some (setField fields "ISBN" (.vStr isbn)) := by
  constructor
  · simp [createBook, createBookTry, hval, catchAll, tput, itemKey_setField]
  · exact tget_tset_self t isbn _

theorem createBook_collision_overwrites_witness :
    schemaValidate dpAll (.vObj demoFields) = .ok demoFields ∧
    tget [("u1", [("title", Value.vStr "Old")])] "u1" =
      some [("title", Value.vStr "Old")] ∧
    createBook dpAll "u1" (Except.ok (.vObj demoFields))
        [("u1", [("title", Value.vStr "Old")])] =
      .ok (jsonResponse 201 (.vObj (setField demoFields "ISBN" (.vStr "u1"))),
        tset [("u1", [("title", Value.vStr "Old")])] "u1"
          (setField demoFields "ISBN" (.vStr "u1"))) ∧
    tget (tset [("u1", [("title", Value.vStr "Old")])] "u1"
        (setField demoFields "ISBN" (.vStr "u1"))) "u1" =
      some (setField demoFields "ISBN" (.vStr "u1")) :=
  ⟨rfl, rfl,
    (createBook_collision_overwrites dpAll "u1"
      [("u1", [("title", Value.vStr "Old")])] [("title", Value.vStr "Old")]
      demoFields rfl rfl).1,
    (createBook_collision_overwrites dpAll "u1"
      [("u1", [("title", Value.vStr "Old")])] [("title", Value.vStr "Old")]
      demoFields rfl rfl).2⟩

/-- C8: an unparseable body given to create, or to update on an existing
identifier, answers HTTP 400 (not 500) with the invalid-request-body
message quoting the parser message, and leaves the table unchanged. -/
theorem malformed_body_400 (dp : String → Bool) (newIsbn id : String)
    (t : Table) (old : JObj) (msg : String) :
    createBook dp newIsbn (.error msg) t =
      .ok (jsonResponse 400
        (.vObj [("error",
          .vStr ("invalid request body format : \"" ++ msg ++ "\""))]), t) ∧
    (tget t id = some old →
      updateBook dp id (.error msg) t =
        .ok (jsonResponse 400
          (.vObj [("error",
            .vStr ("invalid request body format : \"" ++ msg ++ "\""))]), t)) := by
  constructor
  · simp [createBook, createBookTry, catchAll, handleError]
  · intro hex
    simp [updateBook, updateBookTry, fetchBookById, hex, catchAll, handleError]

theorem malformed_body_400_witness :
    createBook dpAll "u1" (Except.error "Unexpected token") [] =
      .ok (jsonResponse 400
        (.vObj [("error",
          .vStr ("invalid request body format : \"" ++ "Unexpected token" ++ "\""))]),
        []) ∧
    tget [("i", demoFields)] "i" = some demoFields ∧
    updateBook dpAll "i" (Except.error "Unexpected token") [("i", demoFields)] =
      .ok (jsonResponse 400
        (.vObj [("error",
          .vStr ("invalid request body format : \"" ++ "Unexpected token" ++ "\""))]),
        [("i", demoFields)]) ∧
    (jsonResponse 400
      (.vObj [("error",
        .vStr ("invalid request body format : \"" ++ "Unexpected token" ++ "\""))])).body =
      "\x7b\"error\":\"invalid request body format : \\\"Unexpected token\\\"\"\x7d" :=
  ⟨(malformed_body_400 dpAll "u1" "i" [] demoFields "Unexpected token").1, rfl,
    (malformed_body_400 dpAll "u1" "i" [("i", demoFields)] demoFields
      "Unexpected token").2 rfl,
    by decide⟩

/-- The five required-field messages produced for the empty payload. -/
def missingAllMsgs : List String :=
  ["author is a required field", "title is a required field",
   "description is a required field", "publication_date is a required field",
   "available is a required field"]

/-- C4: a parseable object payload violating the schema makes create, and
update on an existing identifier, answer HTTP 400 with an errors array,
and that array is the concatenation of the per-field checks, each
contributing at most one message: validation collects all violations
instead of stopping at the first. -/
theorem validation_errors_400 (dp : String → Bool) (newIsbn id : String)
    (t : Table) (old : JObj) (fields : JObj) (errs : List String)
    (herrs : fieldErrors dp fields = errs) (hne : errs ≠ []) :
    createBook dp newIsbn (.ok (.vObj fields)) t =
      .ok (jsonResponse 400 (.vObj [("errors", .vArr (errs.map .vStr))]), t) ∧
    (tget t id = some old →
      updateBook dp id (.ok (.vObj fields)) t =
        .ok (jsonResponse 400 (.vObj [("errors", .vArr (errs.map .vStr))]), t)) ∧
    errs = (requiredString fields "author").toList
      ++ (requiredString fields "title").toList
      ++ (requiredString fields "description").toList
      ++ (requiredDate dp fields).toList
      ++ (requiredBool fields).toList := by
  subst herrs
  have hval : schemaValidate dp (.vObj fields) = .error (fieldErrors dp fields) := by
    cases h : fieldErrors dp fields with
    | nil => exact absurd h hne
    | cons a as => simp [schemaValidate, h]
  refine ⟨?_, ?_, rfl⟩
  · simp [createBook, createBookTry, hval, catchAll, handleError]
  · intro hex
    simp [updateBook, updateBookTry, fetchBookById, hex, hval, catchAll,
      handleError]

theorem validation_errors_400_witness :
    fieldErrors dpAll [] = missingAllMsgs ∧
    missingAllMsgs ≠ [] ∧
    createBook dpAll "u1" (Except.ok (.vObj [])) [] =
      .ok (jsonResponse 400 (.vObj [("errors", .vArr (missingAllMsgs.map .vStr))]),
        []) ∧
    updateBook dpAll "i" (Except.ok (.vObj [])) [("i", demoFields)] =
      .ok (jsonResponse 400 (.vObj [("errors", .vArr (missingAllMsgs.map .vStr))]),
        [("i", demoFields)]) :=
  ⟨rfl, by decide,
    (validation_errors_400 dpAll "u1" "i" [] demoFields [] missingAllMsgs rfl
      (by decide)).1,
    (validation_errors_400 dpAll "u1" "i" [("i", demoFields)] demoFields []
      missingAllMsgs rfl (by decide)).2.1 rfl⟩

/-- C6: delete on an existing identifier answers HTTP 204 with the
plain-text confirmation body and no headers field (so no content-type
header, unlike the JSON responses), removes the record, and a subsequent
get on the identifier answers HTTP 404. -/
theorem deleteBook_removes (id : String) (t : Table) (item : JObj)
    (hex : tget t id = some item) :
    deleteBook id t =
      .ok ({ statusCode := 204, headers := none,
             body := "Record deleted successfully " }, tdelete t id) ∧
    getBook id (tdelete t id) =
      .ok (jsonResponse 404 (.vObj [("error", .vStr "not found")])) := by
  constructor
  · simp [deleteBook, deleteBookTry, fetchBookById, hex, catchAll]
  · simp [getBook, getBookTry, fetchBookById, tget_tdelete_self, catchAllResp,
      handleError, jsonResponse]

theorem deleteBook_removes_witness :
    tget [("i", demoFields)] "i" = some demoFields ∧
    deleteBook "i" [("i", demoFields)] =
      .ok ({ statusCode := 204, headers := none,
             body := "Record deleted successfully " },
        tdelete [("i", demoFields)] "i") ∧
    getBook "i" (tdelete [("i", demoFields)] "i") =
      .ok (jsonResponse 404 (.vObj [("error", .vStr "not found")])) :=
  ⟨rfl, (deleteBook_removes "i" [("i", demoFields)] demoFields rfl).1,
    (deleteBook_removes "i" [("i", demoFields)] demoFields rfl).2⟩

/-- C9: handleError converts exactly the three classified error kinds to
structured responses (ValidationError and SyntaxError to 400, HttpError
to its own status) and re-throws every other failure, while listBook has
no catch at all: every failed scan propagates unchanged. -/
theorem handleError_exactly_three_kinds :
    (∀ errs, handleError (.validationError errs) =
      .ok (jsonResponse 400 (.vObj [("errors", .vArr (errs.map .vStr))]))) ∧
    (∀ msg, handleError (.syntaxError msg) =
      .ok (jsonResponse 400 (.vObj [("error",
        .vStr ("invalid request body format : \"" ++ msg ++ "\""))]))) ∧
    (∀ status body, handleError (.httpError status body) =
      .ok { statusCode := status, headers := some headers,
            body := jsonStringify (.vObj body) }) ∧
    (∀ tag, handleError (.otherError tag) = .error (.otherError tag)) ∧
    (∀ e, listBook (.error e) = .error e) :=
  ⟨fun _ => rfl, fun _ => rfl, fun _ _ => rfl, fun _ => rfl, fun _ => rfl⟩

/-- C10: every 400 or 404 response of create, update and delete leaves
the table unchanged: validation and the existence check happen before any
put or delete storage call. -/
theorem error_responses_leave_table (dp : String → Bool) (newIsbn id : String)
    (body : Except String Value) (t : Table) :
    (∀ r t2, createBook dp newIsbn body t = .ok (r, t2) →
      r.statusCode = 400 ∨ r.statusCode = 404 → t2 = t) ∧
    (∀ r t2, updateBook dp id body t = .ok (r, t2) →
      r.statusCode = 400 ∨ r.statusCode = 404 → t2 = t) ∧
    (∀ r t2, deleteBook id t = .ok (r, t2) →
      r.statusCode = 400 ∨ r.statusCode = 404 → t2 = t) := by
  refine ⟨?_, ?_, ?_⟩
  · intro r t2 h hst
    cases body with
    | error msg =>
        simp [createBook, createBookTry, catchAll, handleError] at h
        exact h.2.symm
    | ok v =>
        cases hv : schemaValidate dp v with
        | error errs =>
            simp [createBook, createBookTry, hv, catchAll, handleError] at h
            exact h.2.symm
        | ok fields =>
            simp [createBook, createBookTry, hv, catchAll] at h
            rw [← h.1] at hst
            simp [jsonResponse] at hst
  · intro r t2 h hst
    cases htg : tget t id with
    | none =>
        simp [updateBook, updateBookTry, fetchBookById, htg, catchAll,
          handleError] at h
        exact h.2.symm
    | some old =>
        cases body with
        | error msg =>
            simp [updateBook, updateBookTry, fetchBookById, htg, catchAll,
              handleError] at h
            exact h.2.symm
        | ok v =>
            cases hv : schemaValidate dp v with
            | error errs =>
                simp [updateBook, updateBookTry, fetchBookById, htg, hv,
                  catchAll, handleError] at h
                exact h.2.symm
            | ok fields =>
                simp [updateBook, updateBookTry, fetchBookById, htg, hv,
                  catchAll] at h
                rw [← h.1] at hst
                simp [jsonResponse] at hst
  · intro r t2 h hst
    cases htg : tget t id with
    | none =>
        simp [deleteBook, deleteBookTry, fetchBookById, htg, catchAll,
          handleError] at h
        exact h.2.symm
    | some old =>
        simp [deleteBook, deleteBookTry, fetchBookById, htg, catchAll] at h
        rw [← h.1] at hst
        simp at hst

theorem error_responses_leave_table_witness :
    createBook dpAll "u1" (Except.error "m") [] =
      .ok (jsonResponse 400 (.vObj [("error",
        .vStr ("invalid request body format : \"" ++ "m" ++ "\""))]), []) ∧
    (jsonResponse 400 (.vObj [("error",
      .vStr ("invalid request body format : \"" ++ "m" ++ "\""))])).statusCode
      = 400 ∧
    ([] : Table) = [] :=
  ⟨rfl, rfl,
    (error_responses_leave_table dpAll "u1" "i" (Except.error "m") []).1
      (jsonResponse 400 (.vObj [("error",
        .vStr ("invalid request body format : \"" ++ "m" ++ "\""))])) []
      rfl (Or.inl rfl)⟩

theorem handleError_exactly_three_kinds_witness :
    handleError (.otherError "storage failure") =
      .error (.otherError "storage failure") ∧
    listBook (.error (.otherError "storage failure")) =
      .error (.otherError "storage failure") :=
  ⟨handleError_exactly_three_kinds.2.2.2.1 "storage failure",
    handleError_exactly_three_kinds.2.2.2.2 (.otherError "storage failure")⟩
